import Mathlib

/-!
# Verification of the jinja template parser (`packages/jinja/src/parser.ts`)

This file gives a shallow embedding, in Lean 4, of the recursive-descent
parser exported by `parse(tokens)` in `packages/jinja/src/parser.ts`, and
proves/refutes the frozen claims about it.

Modelling conventions:
* A JS `Token` is a structure of a `TokenType` (the `TOKEN_TYPES` string
  enum from the lexer, rendered as an inductive) and its string `value`.
* The AST classes from `ast.ts` become one inductive `Statement`; the
  `Map` used for object literals is rendered as an ordered list of
  key/value pairs (the JS `Map` is keyed on node identity and every parsed
  key node is fresh, so `values.set` always appends).
* Thrown JS exceptions become an `Except ParseError` result.  `expect`
  throws `Error("Parser Error: <msg>. <actual> !== <expected>")`, kept as
  structured data in `ParseError.expectedToken`; `SyntaxError` throws keep
  their message; reading `.type` of `tokens[i]` when `i` is out of bounds
  is a JS `TypeError`, rendered `ParseError.typeError`.
* The mutually recursive parse functions are indexed by a fuel parameter
  (`ParseError.outOfFuel` when exhausted); the source functions share the
  closure-captured cursor `current`, which is threaded explicitly here:
  every function takes the token list and cursor and returns the parsed
  node together with the new cursor.
* JS `Number(token.value)` on the integer numerals appearing in templates
  agrees with decimal integer parsing, modelled by `jsNumber`.
-/

namespace Jinja

/-- The lexer token types referenced by the parser (`TOKEN_TYPES`). -/
inductive TokenType where
  | Text
  | NumericLiteral
  | BooleanLiteral
  | StringLiteral
  | Identifier
  | Equals
  | OpenParen
  | CloseParen
  | OpenStatement
  | CloseStatement
  | OpenExpression
  | CloseExpression
  | OpenSquareBracket
  | CloseSquareBracket
  | OpenCurlyBracket
  | CloseCurlyBracket
  | Comma
  | Dot
  | Colon
  | Pipe
  | If
  | For
  | In
  | Is
  | NotIn
  | Else
  | EndIf
  | ElseIf
  | EndFor
  | And
  | Or
  | Not
  | Set
  | AdditiveBinaryOperator
  | MultiplicativeBinaryOperator
  | ComparisonBinaryOperator
deriving DecidableEq, BEq, Repr

/-- A lexer token: a type and the string payload it carries. -/
structure Token where
  type : TokenType
  value : String
deriving DecidableEq, BEq, Repr

/-- The AST node classes of `ast.ts` that the parser constructs. -/
inductive Statement where
  | Program (body : List Statement)
  | If (test : Statement) (body : List Statement) (alternate : List Statement)
  | For (loopVariable : Statement) (iterable : Statement) (body : List Statement)
  | SetStatement (assignee : Statement) (value : Statement)
  | MemberExpression (object : Statement) (property : Statement) (computed : Bool)
  | CallExpression (callee : Statement) (args : List Statement)
  | Identifier (value : String)
  | NumericLiteral (value : Int)
  | StringLiteral (value : String)
  | BooleanLiteral (value : Bool)
  | ArrayLiteral (value : List Statement)
  | ObjectLiteral (value : List (Statement × Statement))
  | BinaryExpression (operator : Token) (left : Statement) (right : Statement)
  | FilterExpression (operand : Statement) (filter : Statement)
  | TestExpression (operand : Statement) (negate : Bool) (filter : Statement)
  | UnaryExpression (operator : Token) (argument : Statement)
  | SliceExpression (start : Option Statement) (stop : Option Statement) (step : Option Statement)
  | KeywordArgumentExpression (key : Statement) (value : Statement)

/-- Failure outcomes of one `parse` call. -/
inductive ParseError where
  /-- `expect` threw `Error("Parser Error: <error>. <actual> !== <expected>")`. -/
  | expectedToken (error : String) (actual : TokenType) (expected : TokenType)
  /-- A `SyntaxError` with a fixed message. -/
  | syntaxError (msg : String)
  /-- `parseAny` threw ``SyntaxError(`Unexpected token type: ...`)``. -/
  | unexpectedTokenType (t : TokenType)
  /-- `parseJinjaStatement` threw ``SyntaxError(`Unknown statement type: ...`)``. -/
  | unknownStatementType (t : TokenType)
  /-- `parsePrimaryExpression` threw ``SyntaxError(`Unexpected token: ...`)``. -/
  | unexpectedToken (t : TokenType)
  /-- A JS `TypeError`: reading `.type`/`.value` of an out-of-bounds `tokens[i]`. -/
  | typeError
  /-- Artifact of the embedding: the fuel bound was exhausted. -/
  | outOfFuel
deriving DecidableEq, BEq, Repr

/-- Accumulate the value of a decimal digit string. -/
def digitsToNat : List Char → Nat → Nat
  | [], acc => acc
  | c :: cs, acc => digitsToNat cs (acc * 10 + (c.toNat - 48))

/-- JS `Number(s)` restricted to the decimal integer numerals produced by
the lexer for `NumericLiteral` tokens. -/
def jsNumber (s : String) : Int :=
  match s.data with
  | '-' :: cs => - (digitsToNat cs 0 : Int)
  | cs => (digitsToNat cs 0 : Int)

/-- The token type found at index `i`, `none` past the end (JS `tokens[i]?.type`). -/
def tokenTypeAt (tokens : List Token) (i : Nat) : Option TokenType :=
  (tokens.get? i).map Token.type

/-- The source's `is(...types)`: `current + types.length <= tokens.length`
and every type matches the token at its offset. -/
def is (tokens : List Token) (current : Nat) (types : List TokenType) : Bool :=
  decide (current + types.length ≤ tokens.length) &&
    types.enum.all fun p => tokenTypeAt tokens (current + p.1) == some p.2

/-- The source's `not(...types)`: `current + types.length <= tokens.length`
and some type differs from the token at its offset.  (Not the negation of
`is`: both are `false` when fewer than `types.length` tokens remain.) -/
def notTokens (tokens : List Token) (current : Nat) (types : List TokenType) : Bool :=
  decide (current + types.length ≤ tokens.length) &&
    types.enum.any fun p => tokenTypeAt tokens (current + p.1) != some p.2

/-- The source's `expect(type, error)`: consume the current token if its
type matches, else throw.  When the cursor is past the end, building the
error message reads `prev.type` of `undefined`, a JS `TypeError`. -/
def expect (tokens : List Token) (current : Nat) (type : TokenType) (error : String) :
    Except ParseError (Token × Nat) :=
  match tokens.get? current with
  | none => .error .typeError
  | some prev =>
    if prev.type = type then .ok (prev, current + 1)
    else .error (.expectedToken error prev.type type)

/-- `parseText`. -/
def parseText (tokens : List Token) (current : Nat) : Except ParseError (Statement × Nat) := do
  let (tok, current) ← expect tokens current .Text "Expected text token"
  .ok (.StringLiteral tok.value, current)

mutual

/-- `parseAny`: dispatch on the current token's type. -/
def parseAny : Nat → List Token → Nat → Except ParseError (Statement × Nat)
  | 0, _, _ => .error .outOfFuel
  | fuel+1, tokens, current =>
    match tokens.get? current with
    | none => .error .typeError
    | some tok =>
      match tok.type with
      | .Text => parseText tokens current
      | .OpenStatement => parseJinjaStatement fuel tokens current
      | .OpenExpression => parseJinjaExpression fuel tokens current
      | t => .error (.unexpectedTokenType t)

termination_by structural fuel _ _ => fuel

/-- `parseJinjaStatement`: `{% ... %}` blocks. -/
def parseJinjaStatement : Nat → List Token → Nat → Except ParseError (Statement × Nat)
  | 0, _, _ => .error .outOfFuel
  | fuel+1, tokens, current => do
    let (_, current) ← expect tokens current .OpenStatement "Expected opening statement token"
    match tokens.get? current with
    | none => .error .typeError
    | some tok =>
      match tok.type with
      | .Set => do
        let (result, current) ← parseSetStatement fuel tokens (current + 1)
        let (_, current) ← expect tokens current .CloseStatement "Expected closing statement token"
        .ok (result, current)
      | .If => do
        let (result, current) ← parseIfStatement fuel tokens (current + 1)
        let (_, current) ← expect tokens current .OpenStatement "Expected \x7b% token"
        let (_, current) ← expect tokens current .EndIf "Expected endif token"
        let (_, current) ← expect tokens current .CloseStatement "Expected %\x7d token"
        .ok (result, current)
      | .For => do
        let (result, current) ← parseForStatement fuel tokens (current + 1)
        let (_, current) ← expect tokens current .OpenStatement "Expected \x7b% token"
        let (_, current) ← expect tokens current .EndFor "Expected endfor token"
        let (_, current) ← expect tokens current .CloseStatement "Expected %\x7d token"
        .ok (result, current)
      | t => .error (.unknownStatementType t)

termination_by structural fuel _ _ => fuel

/-- `parseJinjaExpression`: `{{ ... }}` blocks. -/
def parseJinjaExpression : Nat → List Token → Nat → Except ParseError (Statement × Nat)
  | 0, _, _ => .error .outOfFuel
  | fuel+1, tokens, current => do
    let (_, current) ← expect tokens current .OpenExpression "Expected opening expression token"
    let (result, current) ← parseExpression fuel tokens current
    let (_, current) ← expect tokens current .CloseExpression "Expected closing expression token"
    .ok (result, current)

/-- `parseSetStatement`: `Expr ('=' SetStmt)?`. -/
def parseSetStatement : Nat → List Token → Nat → Except ParseError (Statement × Nat)
  | 0, _, _ => .error .outOfFuel
  | fuel+1, tokens, current => do
    let (left, current) ← parseExpression fuel tokens current
    if is tokens current [.Equals] then do
      let (value, current) ← parseSetStatement fuel tokens (current + 1)
      .ok (.SetStatement left value, current)
    else
      .ok (left, current)

termination_by structural fuel _ _ => fuel

/-- `parseIfStatement` (the caller consumes the final `{% endif %}`). -/
def parseIfStatement : Nat → List Token → Nat → Except ParseError (Statement × Nat)
  | 0, _, _ => .error .outOfFuel
  | fuel+1, tokens, current => do
    let (test, current) ← parseExpression fuel tokens current
    let (_, current) ← expect tokens current .CloseStatement "Expected closing statement token"
    let (body, current) ← parseIfBodyLoop fuel tokens [] current
    if (tokenTypeAt tokens current == some .OpenStatement) &&
        (tokenTypeAt tokens (current + 1) != some .EndIf) then
      let current := current + 1  -- eat {% token
      if is tokens current [.ElseIf] then do
        let (_, current) ← expect tokens current .ElseIf "Expected elseif token"
        let (alt, current) ← parseIfStatement fuel tokens current
        .ok (.If test body [alt], current)
      else do
        let (_, current) ← expect tokens current .Else "Expected else token"
        let (_, current) ← expect tokens current .CloseStatement "Expected closing statement token"
        let (alternate, current) ← parseElseBodyLoop fuel tokens [] current
        .ok (.If test body alternate, current)
    else
      .ok (.If test body [], current)

termination_by structural fuel _ _ => fuel

/-- The `if`-body loop: parse statements until lookahead sees
`{%` followed by `elif`/`else`/`endif`. -/
def parseIfBodyLoop : Nat → List Token → List Statement → Nat → Except ParseError (List Statement × Nat)
  | 0, _, _, _ => .error .outOfFuel
  | fuel+1, tokens, body, current =>
    if (tokenTypeAt tokens current == some .OpenStatement) &&
        ((tokenTypeAt tokens (current + 1) == some .ElseIf) ||
         (tokenTypeAt tokens (current + 1) == some .Else) ||
         (tokenTypeAt tokens (current + 1) == some .EndIf)) then
      .ok (body, current)
    else do
      let (s, current) ← parseAny fuel tokens current
      parseIfBodyLoop fuel tokens (body ++ [s]) current

termination_by structural fuel _ _ _ => fuel

/-- The `else`-body loop: parse statements until lookahead sees `{% endif`. -/
def parseElseBodyLoop : Nat → List Token → List Statement → Nat → Except ParseError (List Statement × Nat)
  | 0, _, _, _ => .error .outOfFuel
  | fuel+1, tokens, alternate, current =>
    if (tokenTypeAt tokens current == some .OpenStatement) &&
        (tokenTypeAt tokens (current + 1) == some .EndIf) then
      .ok (alternate, current)
    else do
      let (s, current) ← parseAny fuel tokens current
      parseElseBodyLoop fuel tokens (alternate ++ [s]) current

termination_by structural fuel _ _ _ => fuel

/-- `parseForStatement` (the caller consumes the final `{% endfor %}`). -/
def parseForStatement : Nat → List Token → Nat → Except ParseError (Statement × Nat)
  | 0, _, _ => .error .outOfFuel
  | fuel+1, tokens, current => do
    let (loopVariable, current) ← parsePrimaryExpression fuel tokens current
    match loopVariable with
    | .Identifier name => do
      let (_, current) ← expect tokens current .In "Expected `in` keyword following loop variable"
      let (iterable, current) ← parseExpression fuel tokens current
      let (_, current) ← expect tokens current .CloseStatement "Expected closing statement token"
      let (body, current) ← parseForBodyLoop fuel tokens [] current
      .ok (.For (.Identifier name) iterable body, current)
    | _ => .error (.syntaxError "Expected identifier for the loop variable")

termination_by structural fuel _ _ => fuel

/-- The `for`-body loop: parse statements while `not(OpenStatement, EndFor)`. -/
def parseForBodyLoop : Nat → List Token → List Statement → Nat → Except ParseError (List Statement × Nat)
  | 0, _, _, _ => .error .outOfFuel
  | fuel+1, tokens, body, current =>
    if notTokens tokens current [.OpenStatement, .EndFor] then do
      let (s, current) ← parseAny fuel tokens current
      parseForBodyLoop fuel tokens (body ++ [s]) current
    else
      .ok (body, current)

termination_by structural fuel _ _ _ => fuel

/-- `parseExpression`: ternary `Or ('if' Or 'else' Or)?`. -/
def parseExpression : Nat → List Token → Nat → Except ParseError (Statement × Nat)
  | 0, _, _ => .error .outOfFuel
  | fuel+1, tokens, current => do
    let (a, current) ← parseLogicalOrExpression fuel tokens current
    if is tokens current [.If] then do
      let (predicate, current) ← parseLogicalOrExpression fuel tokens (current + 1)
      let (_, current) ← expect tokens current .Else "Expected else token"
      let (b, current) ← parseLogicalOrExpression fuel tokens current
      .ok (.If predicate [a] [b], current)
    else
      .ok (a, current)

termination_by structural fuel _ _ => fuel

/-- `parseLogicalOrExpression`. -/
def parseLogicalOrExpression : Nat → List Token → Nat → Except ParseError (Statement × Nat)
  | 0, _, _ => .error .outOfFuel
  | fuel+1, tokens, current => do
    let (left, current) ← parseLogicalAndExpression fuel tokens current
    parseLogicalOrLoop fuel tokens left current

termination_by structural fuel _ _ => fuel

/-- The `or` operator loop. -/
def parseLogicalOrLoop : Nat → List Token → Statement → Nat → Except ParseError (Statement × Nat)
  | 0, _, _, _ => .error .outOfFuel
  | fuel+1, tokens, left, current =>
    if is tokens current [.Or] then
      match tokens.get? current with
      | none => .error .typeError
      | some operator => do
        let (right, current) ← parseLogicalAndExpression fuel tokens (current + 1)
        parseLogicalOrLoop fuel tokens (.BinaryExpression operator left right) current
    else
      .ok (left, current)

termination_by structural fuel _ _ _ => fuel

/-- `parseLogicalAndExpression`. -/
def parseLogicalAndExpression : Nat → List Token → Nat → Except ParseError (Statement × Nat)
  | 0, _, _ => .error .outOfFuel
  | fuel+1, tokens, current => do
    let (left, current) ← parseLogicalNegationExpression fuel tokens current
    parseLogicalAndLoop fuel tokens left current

termination_by structural fuel _ _ => fuel

/-- The `and` operator loop. -/
def parseLogicalAndLoop : Nat → List Token → Statement → Nat → Except ParseError (Statement × Nat)
  | 0, _, _, _ => .error .outOfFuel
  | fuel+1, tokens, left, current =>
    if is tokens current [.And] then
      match tokens.get? current with
      | none => .error .typeError
      | some operator => do
        let (right, current) ← parseLogicalNegationExpression fuel tokens (current + 1)
        parseLogicalAndLoop fuel tokens (.BinaryExpression operator left right) current
    else
      .ok (left, current)

termination_by structural fuel _ _ _ => fuel

/-- `parseLogicalNegationExpression`. -/
def parseLogicalNegationExpression : Nat → List Token → Nat → Except ParseError (Statement × Nat)
  | 0, _, _ => .error .outOfFuel
  | fuel+1, tokens, current => parseLogicalNegationLoop fuel tokens none current

termination_by structural fuel _ _ => fuel

/-- The `not` loop: `right` is the last-built unary expression, if any;
on exit `right ?? parseComparisonExpression()`. -/
def parseLogicalNegationLoop : Nat → List Token → Option Statement → Nat → Except ParseError (Statement × Nat)
  | 0, _, _, _ => .error .outOfFuel
  | fuel+1, tokens, right, current =>
    if is tokens current [.Not] then
      match tokens.get? current with
      | none => .error .typeError
      | some operator => do
        let (arg, current) ← parseLogicalNegationExpression fuel tokens (current + 1)
        parseLogicalNegationLoop fuel tokens (some (.UnaryExpression operator arg)) current
    else
      match right with
      | some r => .ok (r, current)
      | none => parseComparisonExpression fuel tokens current

termination_by structural fuel _ _ _ => fuel

/-- `parseComparisonExpression` (membership shares this tier). -/
def parseComparisonExpression : Nat → List Token → Nat → Except ParseError (Statement × Nat)
  | 0, _, _ => .error .outOfFuel
  | fuel+1, tokens, current => do
    let (left, current) ← parseAdditiveExpression fuel tokens current
    parseComparisonLoop fuel tokens left current

termination_by structural fuel _ _ => fuel

/-- The comparison/membership operator loop. -/
def parseComparisonLoop : Nat → List Token → Statement → Nat → Except ParseError (Statement × Nat)
  | 0, _, _, _ => .error .outOfFuel
  | fuel+1, tokens, left, current =>
    if is tokens current [.ComparisonBinaryOperator] || is tokens current [.In] ||
        is tokens current [.NotIn] then
      match tokens.get? current with
      | none => .error .typeError
      | some operator => do
        let (right, current) ← parseAdditiveExpression fuel tokens (current + 1)
        parseComparisonLoop fuel tokens (.BinaryExpression operator left right) current
    else
      .ok (left, current)

termination_by structural fuel _ _ _ => fuel

/-- `parseAdditiveExpression`. -/
def parseAdditiveExpression : Nat → List Token → Nat → Except ParseError (Statement × Nat)
  | 0, _, _ => .error .outOfFuel
  | fuel+1, tokens, current => do
    let (left, current) ← parseMultiplicativeExpression fuel tokens current
    parseAdditiveLoop fuel tokens left current

termination_by structural fuel _ _ => fuel

/-- The additive operator loop. -/
def parseAdditiveLoop : Nat → List Token → Statement → Nat → Except ParseError (Statement × Nat)
  | 0, _, _, _ => .error .outOfFuel
  | fuel+1, tokens, left, current =>
    if is tokens current [.AdditiveBinaryOperator] then
      match tokens.get? current with
      | none => .error .typeError
      | some operator => do
        let (right, current) ← parseMultiplicativeExpression fuel tokens (current + 1)
        parseAdditiveLoop fuel tokens (.BinaryExpression operator left right) current
    else
      .ok (left, current)

termination_by structural fuel _ _ _ => fuel

/-- `parseCallMemberExpression`. -/
def parseCallMemberExpression : Nat → List Token → Nat → Except ParseError (Statement × Nat)
  | 0, _, _ => .error .outOfFuel
  | fuel+1, tokens, current => do
    let (member, current) ← parseMemberExpression fuel tokens current
    if is tokens current [.OpenParen] then
      parseCallExpression fuel tokens member current
    else
      .ok (member, current)

termination_by structural fuel _ _ => fuel

/-- `parseCallExpression(callee)`. -/
def parseCallExpression : Nat → List Token → Statement → Nat → Except ParseError (Statement × Nat)
  | 0, _, _, _ => .error .outOfFuel
  | fuel+1, tokens, callee, current => do
    let (args, current) ← parseArgs fuel tokens current
    let callExpression := Statement.CallExpression callee args
    if is tokens current [.OpenParen] then
      parseCallExpression fuel tokens callExpression current
    else
      .ok (callExpression, current)

termination_by structural fuel _ _ _ => fuel

/-- `parseArgs`: `'(' ArgumentsList ')'`. -/
def parseArgs : Nat → List Token → Nat → Except ParseError (List Statement × Nat)
  | 0, _, _ => .error .outOfFuel
  | fuel+1, tokens, current => do
    let (_, current) ← expect tokens current .OpenParen "Expected opening parenthesis for arguments list"
    let (args, current) ← parseArgumentsList fuel tokens [] current
    let (_, current) ← expect tokens current .CloseParen "Expected closing parenthesis for arguments list"
    .ok (args, current)

termination_by structural fuel _ _ => fuel

/-- `parseArgumentsList`: the argument loop (comma optional after each
argument; `name = value` becomes a keyword argument). -/
def parseArgumentsList : Nat → List Token → List Statement → Nat → Except ParseError (List Statement × Nat)
  | 0, _, _, _ => .error .outOfFuel
  | fuel+1, tokens, args, current =>
    if is tokens current [.CloseParen] then
      .ok (args, current)
    else do
      let (argument, current) ← parseExpression fuel tokens current
      if is tokens current [.Equals] then
        match argument with
        | .Identifier name => do
          let (value, current) ← parseExpression fuel tokens (current + 1)
          let argument := Statement.KeywordArgumentExpression (.Identifier name) value
          let current := if is tokens current [.Comma] then current + 1 else current
          parseArgumentsList fuel tokens (args ++ [argument]) current
        | _ => .error (.syntaxError "Expected identifier for keyword argument")
      else
        let current := if is tokens current [.Comma] then current + 1 else current
        parseArgumentsList fuel tokens (args ++ [argument]) current

termination_by structural fuel _ _ _ => fuel

/-- The bracket-contents loop of `parseMemberExpressionArgumentsList`:
collects colon-separated components, `none` for an elided one, and records
whether any colon was seen. -/
def parseMemberArgsLoop : Nat → List Token → List (Option Statement) → Bool → Nat →
    Except ParseError (List (Option Statement) × Bool × Nat)
  | 0, _, _, _, _ => .error .outOfFuel
  | fuel+1, tokens, slices, isSlice, current =>
    if is tokens current [.CloseSquareBracket] then
      .ok (slices, isSlice, current)
    else if is tokens current [.Colon] then
      parseMemberArgsLoop fuel tokens (slices ++ [none]) true (current + 1)
    else do
      let (e, current) ← parseExpression fuel tokens current
      if is tokens current [.Colon] then
        parseMemberArgsLoop fuel tokens (slices ++ [some e]) true (current + 1)
      else
        parseMemberArgsLoop fuel tokens (slices ++ [some e]) isSlice current

termination_by structural fuel _ _ _ _ => fuel

/-- `parseMemberExpressionArgumentsList`: index or slice inside `[...]`. -/
def parseMemberExpressionArgumentsList : Nat → List Token → Nat → Except ParseError (Statement × Nat)
  | 0, _, _ => .error .outOfFuel
  | fuel+1, tokens, current => do
    let (slices, isSlice, current) ← parseMemberArgsLoop fuel tokens [] false current
    if slices.length = 0 then
      .error (.syntaxError "Expected at least one argument for member/slice expression")
    else if isSlice then
      if slices.length > 3 then
        .error (.syntaxError "Expected 0-3 arguments for slice expression")
      else
        .ok (.SliceExpression (slices.getD 0 none) (slices.getD 1 none) (slices.getD 2 none),
             current)
    else
      match slices with
      | some e :: _ => .ok (e, current)
      | _ => .error .typeError  -- unreachable: with no colon every entry is a parsed expression

termination_by structural fuel _ _ => fuel

/-- `parseMemberExpression`. -/
def parseMemberExpression : Nat → List Token → Nat → Except ParseError (Statement × Nat)
  | 0, _, _ => .error .outOfFuel
  | fuel+1, tokens, current => do
    let (object, current) ← parsePrimaryExpression fuel tokens current
    parseMemberLoop fuel tokens object current

termination_by structural fuel _ _ => fuel

/-- The member-access loop: `.name` and `[...]` chains. -/
def parseMemberLoop : Nat → List Token → Statement → Nat → Except ParseError (Statement × Nat)
  | 0, _, _, _ => .error .outOfFuel
  | fuel+1, tokens, object, current =>
    if is tokens current [.Dot] || is tokens current [.OpenSquareBracket] then
      match tokens.get? current with
      | none => .error .typeError
      | some operator =>
        let current := current + 1
        if operator.type ≠ .Dot then do
          -- computed (i.e., bracket notation: obj[expr])
          let (property, current) ← parseMemberExpressionArgumentsList fuel tokens current
          let (_, current) ← expect tokens current .CloseSquareBracket "Expected closing square bracket"
          parseMemberLoop fuel tokens (.MemberExpression object property true) current
        else do
          -- non-computed (i.e., dot notation: obj.expr)
          let (property, current) ← parsePrimaryExpression fuel tokens current
          match property with
          | .Identifier name =>
            parseMemberLoop fuel tokens (.MemberExpression object (.Identifier name) false) current
          | _ => .error (.syntaxError "Expected identifier following dot operator")
    else
      .ok (object, current)

termination_by structural fuel _ _ _ => fuel

/-- `parseMultiplicativeExpression` (its operand is the Test tier). -/
def parseMultiplicativeExpression : Nat → List Token → Nat → Except ParseError (Statement × Nat)
  | 0, _, _ => .error .outOfFuel
  | fuel+1, tokens, current => do
    let (left, current) ← parseTestExpression fuel tokens current
    parseMultiplicativeLoop fuel tokens left current

termination_by structural fuel _ _ => fuel

/-- The multiplicative operator loop. -/
def parseMultiplicativeLoop : Nat → List Token → Statement → Nat → Except ParseError (Statement × Nat)
  | 0, _, _, _ => .error .outOfFuel
  | fuel+1, tokens, left, current =>
    if is tokens current [.MultiplicativeBinaryOperator] then
      match tokens.get? current with
      | none => .error .typeError
      | some operator => do
        let (right, current) ← parseTestExpression fuel tokens (current + 1)
        parseMultiplicativeLoop fuel tokens (.BinaryExpression operator left right) current
    else
      .ok (left, current)

termination_by structural fuel _ _ _ => fuel

/-- `parseTestExpression`. -/
def parseTestExpression : Nat → List Token → Nat → Except ParseError (Statement × Nat)
  | 0, _, _ => .error .outOfFuel
  | fuel+1, tokens, current => do
    let (operand, current) ← parseFilterExpression fuel tokens current
    parseTestLoop fuel tokens operand current

termination_by structural fuel _ _ => fuel

/-- The `is`/`is not` loop: the test name is a primary expression that must
be an identifier (a boolean literal is reinterpreted as one). -/
def parseTestLoop : Nat → List Token → Statement → Nat → Except ParseError (Statement × Nat)
  | 0, _, _, _ => .error .outOfFuel
  | fuel+1, tokens, operand, current =>
    if is tokens current [.Is] then
      let current := current + 1  -- consume is
      let negate := is tokens current [.Not]
      let current := if negate then current + 1 else current
      do
        let (filter, current) ← parsePrimaryExpression fuel tokens current
        let filter := match filter with
          | .BooleanLiteral b => Statement.Identifier (if b then "true" else "false")
          | f => f
        match filter with
        | .Identifier name =>
          parseTestLoop fuel tokens (.TestExpression operand negate (.Identifier name)) current
        | _ => .error (.syntaxError "Expected identifier for the test")
    else
      .ok (operand, current)

termination_by structural fuel _ _ _ => fuel

/-- `parseFilterExpression`. -/
def parseFilterExpression : Nat → List Token → Nat → Except ParseError (Statement × Nat)
  | 0, _, _ => .error .outOfFuel
  | fuel+1, tokens, current => do
    let (operand, current) ← parseCallMemberExpression fuel tokens current
    parseFilterLoop fuel tokens operand current

termination_by structural fuel _ _ => fuel

/-- The `|` filter loop: filter name must be an identifier, optionally
invoked with `(...)`. -/
def parseFilterLoop : Nat → List Token → Statement → Nat → Except ParseError (Statement × Nat)
  | 0, _, _, _ => .error .outOfFuel
  | fuel+1, tokens, operand, current =>
    if is tokens current [.Pipe] then do
      let (filter, current) ← parsePrimaryExpression fuel tokens (current + 1)
      match filter with
      | .Identifier name =>
        if is tokens current [.OpenParen] then do
          let (filter, current) ← parseCallExpression fuel tokens (.Identifier name) current
          parseFilterLoop fuel tokens (.FilterExpression operand filter) current
        else
          parseFilterLoop fuel tokens (.FilterExpression operand (.Identifier name)) current
      | _ => .error (.syntaxError "Expected identifier for the filter")
    else
      .ok (operand, current)

termination_by structural fuel _ _ _ => fuel

/-- `parsePrimaryExpression`. -/
def parsePrimaryExpression : Nat → List Token → Nat → Except ParseError (Statement × Nat)
  | 0, _, _ => .error .outOfFuel
  | fuel+1, tokens, current =>
    match tokens.get? current with
    | none => .error .typeError
    | some token =>
      match token.type with
      | .NumericLiteral => .ok (.NumericLiteral (jsNumber token.value), current + 1)
      | .StringLiteral => .ok (.StringLiteral token.value, current + 1)
      | .BooleanLiteral => .ok (.BooleanLiteral (token.value == "true"), current + 1)
      | .Identifier => .ok (.Identifier token.value, current + 1)
      | .OpenParen => do
        let (expression, current) ← parseExpression fuel tokens (current + 1)
        match tokens.get? current with
        | none => .error .typeError
        | some t =>
          if t.type ≠ .CloseParen then .error (.syntaxError "Expected closing parenthesis")
          else .ok (expression, current + 1)
      | .OpenSquareBracket => do
        let (values, current) ← parseArrayValuesLoop fuel tokens [] (current + 1)
        .ok (.ArrayLiteral values, current + 1)
      | .OpenCurlyBracket => do
        let (values, current) ← parseObjectValuesLoop fuel tokens [] (current + 1)
        .ok (.ObjectLiteral values, current + 1)
      | t => .error (.unexpectedToken t)

termination_by structural fuel _ _ => fuel

/-- The array-literal element loop (comma optional after each element). -/
def parseArrayValuesLoop : Nat → List Token → List Statement → Nat → Except ParseError (List Statement × Nat)
  | 0, _, _, _ => .error .outOfFuel
  | fuel+1, tokens, values, current =>
    if is tokens current [.CloseSquareBracket] then
      .ok (values, current)
    else do
      let (e, current) ← parseExpression fuel tokens current
      let current := if is tokens current [.Comma] then current + 1 else current
      parseArrayValuesLoop fuel tokens (values ++ [e]) current

termination_by structural fuel _ _ _ => fuel

/-- The object-literal pair loop: each iteration appends one
(key, value) pair; keys are never merged. -/
def parseObjectValuesLoop : Nat → List Token → List (Statement × Statement) → Nat →
    Except ParseError (List (Statement × Statement) × Nat)
  | 0, _, _, _ => .error .outOfFuel
  | fuel+1, tokens, values, current =>
    if is tokens current [.CloseCurlyBracket] then
      .ok (values, current)
    else do
      let (key, current) ← parseExpression fuel tokens current
      let (_, current) ← expect tokens current .Colon "Expected colon between key and value in object literal"
      let (value, current) ← parseExpression fuel tokens current
      let current := if is tokens current [.Comma] then current + 1 else current
      parseObjectValuesLoop fuel tokens (values ++ [(key, value)]) current
termination_by structural fuel _ _ _ => fuel

end

/-- The top-level `while (current < tokens.length)` loop of `parse`. -/
def parseProgramLoop : Nat → List Token → List Statement → Nat → Except ParseError (List Statement × Nat)
  | 0, _, _, _ => .error .outOfFuel
  | fuel+1, tokens, body, current =>
    if current < tokens.length then do
      let (s, current) ← parseAny fuel tokens current
      parseProgramLoop fuel tokens (body ++ [s]) current
    else
      .ok (body, current)

/-- The exported `parse(tokens)`, fuel-indexed. -/
def parse (fuel : Nat) (tokens : List Token) : Except ParseError Statement := do
  let (body, _) ← parseProgramLoop fuel tokens [] 0
  .ok (.Program body)

/-- Abbreviation for building tokens. -/
def tok (t : TokenType) (v : String) : Token := ⟨t, v⟩

/-! ## Token abbreviations for the concrete templates under study -/

/-- `{%`. -/
def oS : Token := tok .OpenStatement "\x7b%"
/-- `%}`. -/
def cS : Token := tok .CloseStatement "%\x7d"
/-- `{{`. -/
def oE : Token := tok .OpenExpression "\x7b\x7b"
/-- `}}`. -/
def cE : Token := tok .CloseExpression "\x7d\x7d"
/-- An identifier token. -/
def idT (s : String) : Token := tok .Identifier s
/-- A numeric-literal token. -/
def numT (s : String) : Token := tok .NumericLiteral s
/-- A string-literal token. -/
def strT (s : String) : Token := tok .StringLiteral s
/-- A plain-text token. -/
def textT (s : String) : Token := tok .Text s

/-! ## The claims -/

/-- C1: the spec (and the comment in `parseMultiplicativeExpression`) says
`4 * 4 is divisibleby(2)` inside expression delimiters parses to
`Binary(*, 4, Test(4, false, Call(divisibleby, [2])))`.  It does not:
`parseTestExpression` reads the test name with `parsePrimaryExpression`
and never consumes a parenthesized argument list, so the tokens `(2)` are
left unconsumed and `parseJinjaExpression` throws the `Expected closing
expression token` error upon seeing `(` instead of the closing braces. -/
theorem divisibleby_call_in_test_position_fails :
    parse 64 [oE, numT "4", tok .MultiplicativeBinaryOperator "*", numT "4",
      tok .Is "is", idT "divisibleby", tok .OpenParen "(", numT "2",
      tok .CloseParen ")", cE] =
      .error (.expectedToken "Expected closing expression token" .OpenParen .CloseExpression) := by
  rfl

/-- C2: `parseIfStatement` desugars each `elif` into a nested `If` placed
as the sole element of the enclosing alternate list, and the single final
endif triad is consumed by the outermost `parseJinjaStatement` caller:
for any condition identifiers and body texts,
`{% if a %}X{% elif b %}Y{% else %}Z{% endif %}` parses to
`If(a, [X], [If(b, [Y], [Z])])`. -/
theorem elif_desugars_to_nested_if (a b x y z : String) :
    parse 64 [oS, tok .If "if", idT a, cS, textT x,
      oS, tok .ElseIf "elif", idT b, cS, textT y,
      oS, tok .Else "else", cS, textT z,
      oS, tok .EndIf "endif", cS] =
      .ok (.Program [.If (.Identifier a) [.StringLiteral x]
        [.If (.Identifier b) [.StringLiteral y] [.StringLiteral z]]]) := by
  rfl

/-- C3 counterexample: contrary to the claim, `{% for a.b in c %}` does not
fail with the `InvalidLoopVariable` diagnostic.  `parseForStatement` reads
the loop variable with `parsePrimaryExpression`, which consumes only the
identifier `a` and passes the `instanceof Identifier` check; the parse then
fails at the dot with the `ExpectedToken` error for the `in` keyword. -/
theorem member_loop_variable_fails_with_expected_in :
    parse 64 [oS, tok .For "for", idT "a", tok .Dot ".", idT "b",
      tok .In "in", idT "c", cS] =
      .error (.expectedToken "Expected `in` keyword following loop variable" .Dot .In) := by
  rfl

/-- C3 amended: `{% for a.b in c %}` fails with
`ExpectedToken(in, dot)` — not `InvalidLoopVariable` — because the loop
variable is parsed as a primary expression (here just the identifier `a`);
`InvalidLoopVariable` (the `Expected identifier for the loop variable`
diagnostic) fires only when the primary expression itself is not an
identifier, e.g. for the parenthesized member expression in
`{% for (a.b) in c %}`. -/
theorem loop_variable_error_cases :
    parse 64 [oS, tok .For "for", idT "a", tok .Dot ".", idT "b",
      tok .In "in", idT "c", cS] =
      .error (.expectedToken "Expected `in` keyword following loop variable" .Dot .In) ∧
    parse 64 [oS, tok .For "for", tok .OpenParen "(", idT "a", tok .Dot ".", idT "b",
      tok .CloseParen ")", tok .In "in", idT "c", cS] =
      .error (.syntaxError "Expected identifier for the loop variable") := by
  exact ⟨rfl, rfl⟩

/-- C4 counterexample: contrary to the claim, `{% if a %}X` with no
`endif` does not fail with an `ExpectedToken(endif, ...)` error: the
`if`-body loop never sees the `(OpenStatement, elif|else|endif)` lookahead,
so it calls `parseAny` past the end of the token stream, and
`tokens[current].type` on `undefined` is a JS `TypeError` crash. -/
theorem unterminated_if_crashes_with_type_error :
    parse 64 [oS, tok .If "if", idT "a", cS, textT "X"] = .error .typeError := by
  rfl

/-- C4 amended: on `{% if a %}X` without `endif` the parse fails, but with
the out-of-bounds token access (JS `TypeError`) raised by `parseAny` when
the `if`-body loop runs past the end of the stream (cursor 5 on a 5-token
stream), not with the `ExpectedToken(endif, ...)` parser error. -/
theorem unterminated_if_out_of_bounds_access :
    parse 64 [oS, tok .If "if", idT "a", cS, textT "X"] = .error .typeError ∧
    parseAny 32 [oS, tok .If "if", idT "a", cS, textT "X"] 5 = .error .typeError := by
  exact ⟨rfl, rfl⟩

/-- C5: comparison and membership share one left-associative tier: for all
operand identifiers, `a in b == c` parses to
`Binary(==, Binary(in, a, b), c)`, never the right-nested reading. -/
theorem membership_comparison_fold_left (a b c : String) :
    parse 64 [oE, idT a, tok .In "in", idT b,
      tok .ComparisonBinaryOperator "==", idT c, cE] =
      .ok (.Program [.BinaryExpression (tok .ComparisonBinaryOperator "==")
        (.BinaryExpression (tok .In "in") (.Identifier a) (.Identifier b))
        (.Identifier c)]) := by
  rfl

/-- C6: bracket access with a colon yields a `SliceExpression` with `none`
for each elided component: `x[1:2:3]` parses to
`Member(x, Slice(some 1, some 2, some 3), computed=true)` and `x[:2]` to
`Member(x, Slice(none, some 2, none), computed=true)`. -/
theorem slice_components_explicit_absent :
    parse 64 [oE, idT "x", tok .OpenSquareBracket "[", numT "1", tok .Colon ":",
      numT "2", tok .Colon ":", numT "3", tok .CloseSquareBracket "]", cE] =
      .ok (.Program [.MemberExpression (.Identifier "x")
        (.SliceExpression (some (.NumericLiteral 1)) (some (.NumericLiteral 2))
          (some (.NumericLiteral 3))) true]) ∧
    parse 64 [oE, idT "x", tok .OpenSquareBracket "[", tok .Colon ":", numT "2",
      tok .CloseSquareBracket "]", cE] =
      .ok (.Program [.MemberExpression (.Identifier "x")
        (.SliceExpression none (some (.NumericLiteral 2)) none) true]) := by
  exact ⟨rfl, rfl⟩

/-- C7: empty brackets `x[]` fail with the `EmptyIndexExpression`
diagnostic (`Expected at least one argument for member/slice expression`)
and four slice components `x[1:2:3:4]` fail with the `MalformedSlice`
diagnostic (`Expected 0-3 arguments for slice expression`). -/
theorem empty_index_and_malformed_slice :
    parse 64 [oE, idT "x", tok .OpenSquareBracket "[",
      tok .CloseSquareBracket "]", cE] =
      .error (.syntaxError "Expected at least one argument for member/slice expression") ∧
    parse 64 [oE, idT "x", tok .OpenSquareBracket "[", numT "1", tok .Colon ":",
      numT "2", tok .Colon ":", numT "3", tok .Colon ":", numT "4",
      tok .CloseSquareBracket "]", cE] =
      .error (.syntaxError "Expected 0-3 arguments for slice expression") := by
  exact ⟨rfl, rfl⟩

/-- C8: in test position a boolean literal is reinterpreted as an
identifier of the same text (`a is true` yields
`Test(a, false, Identifier "true")`), and whenever the primary expression
parsed after `is`/`is not` is neither a boolean literal nor an identifier,
the test loop fails with the `InvalidTestName` diagnostic
(`Expected identifier for the test`). -/
theorem test_name_boolean_reinterpreted_others_rejected
    (fuel : Nat) (tokens : List Token) (current : Nat) (operand filter : Statement) (next : Nat)
    (hIs : is tokens current [.Is] = true)
    (hPrim : parsePrimaryExpression fuel tokens
      (if is tokens (current + 1) [.Not] then current + 1 + 1 else current + 1) =
      .ok (filter, next))
    (hNotBool : ∀ b, filter ≠ .BooleanLiteral b)
    (hNotId : ∀ s, filter ≠ .Identifier s) :
    parse 64 [oE, idT "a", tok .Is "is", tok .BooleanLiteral "true", cE] =
      .ok (.Program [.TestExpression (.Identifier "a") false (.Identifier "true")]) ∧
    parseTestLoop (fuel + 1) tokens operand current =
      .error (.syntaxError "Expected identifier for the test") := by
  refine ⟨rfl, ?_⟩
  cases filter <;>
    first
      | exact absurd rfl (hNotBool _)
      | exact absurd rfl (hNotId _)
      | simp [parseTestLoop, hIs, hPrim, Bind.bind, Except.bind]

/-- C8 witness: the hypotheses of the test-name theorem are satisfiable,
e.g. at the fragment `a is 1`, whose test loop rejects the numeric literal. -/
theorem test_name_witness :
    parse 64 [oE, idT "a", tok .Is "is", tok .BooleanLiteral "true", cE] =
      .ok (.Program [.TestExpression (.Identifier "a") false (.Identifier "true")]) ∧
    parseTestLoop 9 [idT "a", tok .Is "is", numT "1"] (.Identifier "a") 1 =
      .error (.syntaxError "Expected identifier for the test") :=
  test_name_boolean_reinterpreted_others_rejected 8 [idT "a", tok .Is "is", numT "1"] 1
    (.Identifier "a") (.NumericLiteral 1) 3 rfl rfl
    (fun _ h => Statement.noConfusion h) (fun _ h => Statement.noConfusion h)

/-- C9: object literals keep one (key, value) pair per textual occurrence
in source order with no deduplication: for any key text `k`,
`{'k': 1, 'k': 2}` parses to an `ObjectLiteral` holding two pairs with the
same key expression. -/
theorem object_literal_keys_not_deduplicated (k : String) :
    parse 64 [oE, tok .OpenCurlyBracket "\x7b", strT k, tok .Colon ":", numT "1",
      tok .Comma ",", strT k, tok .Colon ":", numT "2",
      tok .CloseCurlyBracket "\x7d", cE] =
      .ok (.Program [.ObjectLiteral [(.StringLiteral k, .NumericLiteral 1),
        (.StringLiteral k, .NumericLiteral 2)]]) := by
  rfl

/-- C10: commas between call arguments and between array elements are
optional: `f(a b)` and `f(a, b)` parse to the same `CallExpression`, and
`[1 2]` and `[1, 2]` parse to the same `ArrayLiteral`. -/
theorem separators_optional_in_args_and_arrays :
    parse 64 [oE, idT "f", tok .OpenParen "(", idT "a", idT "b",
      tok .CloseParen ")", cE] =
      .ok (.Program [.CallExpression (.Identifier "f")
        [.Identifier "a", .Identifier "b"]]) ∧
    parse 64 [oE, idT "f", tok .OpenParen "(", idT "a", tok .Comma ",", idT "b",
      tok .CloseParen ")", cE] =
      .ok (.Program [.CallExpression (.Identifier "f")
        [.Identifier "a", .Identifier "b"]]) ∧
    parse 64 [oE, tok .OpenSquareBracket "[", numT "1", numT "2",
      tok .CloseSquareBracket "]", cE] =
      .ok (.Program [.ArrayLiteral [.NumericLiteral 1, .NumericLiteral 2]]) ∧
    parse 64 [oE, tok .OpenSquareBracket "[", numT "1", tok .Comma ",", numT "2",
      tok .CloseSquareBracket "]", cE] =
      .ok (.Program [.ArrayLiteral [.NumericLiteral 1, .NumericLiteral 2]]) := by
  exact ⟨rfl, rfl, rfl, rfl⟩

end Jinja
